import Mathlib

/-!
Shallow embedding of the zk-tic-tac-toe repository.

* `game/src/lib.rs` — the game engine (`TicTacToe`, `make_move`,
  `update_state`, `as_bytes`) and its data types.
* `methods/guest/src/main.rs` — the zkVM guest program (`guest_main`).
* `host/src/main.rs` — the server/client roles (`Client`, `verify_receipt`).

Machine integers: the Rust code uses `usize` only for coordinates and loop
indices, all bounded by `CELL_COUNT = 3`; they are modelled as `Nat`
(no arithmetic that could overflow occurs).  Bytes are modelled as `Nat`
with the concrete values fixed by the `#[repr(u8)]` discriminants.
-/

namespace ZkTicTacToe

/-- `Player` from game/src/lib.rs: `#[repr(u8)] enum Player { A, B }`. -/
inductive Player where
  | A
  | B
deriving DecidableEq, Fintype

/-- `Cell` from game/src/lib.rs:
`#[repr(u8)] enum Cell { Player1, Player2, Vacant }`. -/
inductive Cell where
  | Player1
  | Player2
  | Vacant
deriving DecidableEq, Fintype

/-- `State` from game/src/lib.rs:
`enum State { InProgress, Stalemate, Winner(Player) }`. -/
inductive State where
  | InProgress
  | Stalemate
  | Winner (p : Player)
deriving DecidableEq, Fintype

/-- `MoveError` from game/src/lib.rs. -/
inductive MoveError where
  | PointOutOfBounds
  | CellOccupied
  | GameFinished
deriving DecidableEq

/-- `Point { x: usize, y: usize }` from game/src/lib.rs; coordinates are
not bounds-checked at construction, only at use. -/
structure Point where
  x : Nat
  y : Nat
deriving DecidableEq

/-- The Rust board `[[Cell; CELL_COUNT]; CELL_COUNT]` with `CELL_COUNT = 3`,
indexed as `board y x` mirroring `self.board[y][x]`. -/
abbrev Board := Fin 3 → Fin 3 → Cell

/-- `TicTacToe { board, previous, state }` from game/src/lib.rs. -/
structure TicTacToe where
  board : Board
  previous : Player
  state : State
deriving DecidableEq

/-- `VerifyError`: the three fatal verifier failures of the client
(`host/src/main.rs::Client::verify_receipt`): the "Game has already ended!"
assertion, `receipt.verify` failure, and the "Game state hash mismatch!"
assertion, in that order (spec §4.4). -/
inductive VerifyError where
  | AlreadyEnded
  | ProofInvalid
  | HashMismatch
deriving DecidableEq

/-- `Player::flip` from game/src/lib.rs. -/
def Player.flip : Player → Player
  | .A => .B
  | .B => .A

/-- `impl Into<Cell> for Player` from game/src/lib.rs. -/
def Player.intoCell : Player → Cell
  | .A => .Player1
  | .B => .Player2

/-- `TicTacToe::new` from game/src/lib.rs: vacant board, `previous = B`,
`state = InProgress`. -/
def TicTacToe.new : TicTacToe where
  board := fun _ _ => Cell.Vacant
  previous := Player.B
  state := State.InProgress

/-- Writing one cell of the board, mirroring
`self.board[point.y][point.x] = ...` in `make_move`. -/
def setCell (b : Board) (y x : Fin 3) (c : Cell) : Board :=
  fun y' x' => if y' = y ∧ x' = x then c else b y' x'

/-- The inner `for x in 0..CELL_COUNT` loop of `TicTacToe::update_state`
(game/src/lib.rs lines 137-151), threading the mutable locals
`(has_vacant, horizontal, vertical)`. -/
def innerLoop (b : Board) (y : Fin 3) :
    List (Fin 3) → Bool × Bool × Bool → Bool × Bool × Bool
  | [], acc => acc
  | x :: xs, (has_vacant, horizontal, vertical) =>
    let cell := b y x
    let has_vacant := if cell = Cell.Vacant then true else has_vacant
    let horizontal :=
      if horizontal ∧ 0 < x.val then decide (cell = b y (x - 1)) else horizontal
    let vertical :=
      if vertical ∧ 0 < x.val then decide (b x y = b (x - 1) y) else vertical
    innerLoop b y xs (has_vacant, horizontal, vertical)

/-- The outer `for y in 0..CELL_COUNT` loop of `TicTacToe::update_state`
(game/src/lib.rs lines 122-164).  The mutable locals
`(has_vacant, left_diag, right_diag)` are threaded through; a `break`
(after recording `winner`) returns `some` winner cell, falling off the end
returns `none`.  Index arithmetic (`y - 1`, `2 - y`, `2 - y + 1`) uses
`Fin 3` subtraction, which agrees with the `usize` arithmetic of the source
on every guarded use (`y > 0`). -/
def outerLoop (b : Board) :
    List (Fin 3) → Bool → Bool → Bool → Bool × Bool × Bool × Option Cell
  | [], has_vacant, left_diag, right_diag => (has_vacant, left_diag, right_diag, none)
  | y :: ys, has_vacant, left_diag, right_diag =>
    let horizontal := decide (b y 0 ≠ Cell.Vacant)
    let vertical := decide (b 0 y ≠ Cell.Vacant)
    let left_diag :=
      if left_diag ∧ 0 < y.val then decide (b y y = b (y - 1) (y - 1)) else left_diag
    let right_diag :=
      if right_diag ∧ 0 < y.val then
        decide (b y (2 - y) = b (y - 1) (2 - y + 1))
      else right_diag
    match innerLoop b y [0, 1, 2] (has_vacant, horizontal, vertical) with
    | (has_vacant, horizontal, vertical) =>
      if horizontal then (has_vacant, left_diag, right_diag, some (b y 0))
      else if vertical then (has_vacant, left_diag, right_diag, some (b 0 y))
      else outerLoop b ys has_vacant left_diag right_diag

/-- The new value of `self.state` computed by `TicTacToe::update_state`
(game/src/lib.rs lines 114-185); the method mutates only `self.state`, so it
is factored as a function of the board and the current state.  The
`Some(Cell::Vacant)` branch is `unreachable!()` in the source (a winner cell
is always non-vacant); it is modelled as leaving the state unchanged. -/
def update_state_val (b : Board) (s : State) : State :=
  let left_diag := decide (b 0 0 ≠ Cell.Vacant)
  let right_diag := decide (b 0 2 ≠ Cell.Vacant)
  match outerLoop b [0, 1, 2] false left_diag right_diag with
  | (has_vacant, left_diag, right_diag, winner) =>
    let winner := if left_diag then some (b 0 0) else winner
    let winner := if right_diag then some (b 0 2) else winner
    match winner with
    | some Cell.Player1 => State.Winner Player.A
    | some Cell.Player2 => State.Winner Player.B
    | some Cell.Vacant => s
    | none => if ¬ has_vacant then State.Stalemate else s

/-- `TicTacToe::update_state` as a state transformer (the Rust method
mutates `self.state` in place). -/
def update_state (g : TicTacToe) : TicTacToe :=
  { g with state := update_state_val g.board g.state }

/-- `TicTacToe::make_move` from game/src/lib.rs (lines 82-104).  The Rust
method takes `&mut self` and returns `Result<(), MoveError>`; it is modelled
as returning the pair (error, final value of `self`).  All validation in the
source happens before any write to `self`, which the returned pairs mirror
exactly. -/
def make_move (g : TicTacToe) (p : Point) : Option MoveError × TicTacToe :=
  if g.state ≠ State.InProgress then
    (some MoveError.GameFinished, g)
  else if h : 3 ≤ p.x ∨ 3 ≤ p.y then
    (some MoveError.PointOutOfBounds, g)
  else
    let y : Fin 3 := ⟨p.y, by omega⟩
    let x : Fin 3 := ⟨p.x, by omega⟩
    if g.board y x ≠ Cell.Vacant then
      (some MoveError.CellOccupied, g)
    else
      let current := g.previous.flip
      let g' : TicTacToe :=
        { g with previous := current, board := setCell g.board y x current.intoCell }
      (none, update_state g')

/-- The byte value of a `Cell` under `#[repr(u8)]`:
`Player1 = 0`, `Player2 = 1`, `Vacant = 2`. -/
def cellByte : Cell → Nat
  | .Player1 => 0
  | .Player2 => 1
  | .Vacant => 2

/-- The byte value of a `Player` under `#[repr(u8)]`: `A = 0`, `B = 1`. -/
def playerByte : Player → Nat
  | .A => 0
  | .B => 1

/-- The byte representation of `State`.  `State` has one payload-carrying
variant whose payload (`Player`) occupies one byte with only the values
0 and 1 inhabited, so rustc's niche layout packs the whole enum into a
single byte: `Winner(p)` is stored as `p`'s byte, and the two dataless
variants fill the niche starting at 2 (`InProgress = 2`, `Stalemate = 3`).
This is what makes `mem::align_of::<TicTacToe>() == 1` (asserted in
`as_bytes`) and the declared output length of `as_bytes` correct. -/
def stateBytes : State → List Nat
  | .Winner p => [playerByte p]
  | .InProgress => [2]
  | .Stalemate => [3]

/-- `TicTacToe::as_bytes` from game/src/lib.rs (lines 212-222): the
`#[repr(C)]` struct reinterpreted as raw bytes, i.e. the 9 board cells in
row-major order (`board[0][0..3]`, `board[1][0..3]`, `board[2][0..3]`), then
the `previous` byte, then the `state` byte(s), with no padding (the source
asserts `align_of::<TicTacToe>() == 1`). -/
def as_bytes (g : TicTacToe) : List Nat :=
  ((List.finRange 3).flatMap fun y =>
    (List.finRange 3).map fun x => cellByte (g.board y x))
    ++ [playerByte g.previous] ++ stateBytes g.state

/-- Modelled from the spec: the external hashing capability (§6,
`risc0_zkvm::sha`, not part of this repository) is a deterministic,
collision-resistant digest over byte sequences.  It is modelled as the
ideal such digest — the identity on byte sequences, which is deterministic
and injective (collision-free). -/
def hash (bytes : List Nat) : List Nat := bytes

/-- `VmResponse { game, prev_state_hash }` from game/src/lib.rs: the public
output (journal) committed by the guest program. -/
structure VmResponse where
  game : TicTacToe
  prev_state_hash : List Nat
deriving DecidableEq

/-- The guest program `main` from methods/guest/src/main.rs: read the game
and the point, hash the prior state's bytes, apply `make_move` —
`.unwrap()` makes any `MoveError` a fatal panic, committing nothing
(`none`) — and commit the `VmResponse`. -/
def guest_main (g : TicTacToe) (p : Point) : Option VmResponse :=
  let prev_state_hash := hash (as_bytes g)
  match make_move g p with
  | (none, g') => some { game := g', prev_state_hash := prev_state_hash }
  | (some _, _) => none

/-- `Client { game_state, state_hash }` from host/src/main.rs: the verifier
record of spec §4.4. -/
structure Client where
  game_state : State
  state_hash : List Nat
deriving DecidableEq

/-- `Client::new` from host/src/main.rs: `state_hash` is
`TicTacToe::initial_hash()`, the hash of the initial state's bytes. -/
def Client.new : Client where
  game_state := State.InProgress
  state_hash := hash (as_bytes TicTacToe.new)

/-- `Client::verify_receipt` from host/src/main.rs (lines 118-129).  The
two `assert_eq!`s and the `receipt.verify(MAKE_MOVE_ID)` check abort
(panic) before any mutation; they are modelled, in source order, as the
three `VerifyError`s of spec §4.4, returned together with the final value
of `self`.  `proof_ok` stands for the outcome of the external
`receipt.verify` capability; `resp` is the journal (`VmResponse`) carried
by the receipt. -/
def verify_receipt (c : Client) (proof_ok : Bool) (resp : VmResponse) :
    Option VerifyError × Client :=
  if c.game_state ≠ State.InProgress then
    (some VerifyError.AlreadyEnded, c)
  else if ¬ proof_ok then
    (some VerifyError.ProofInvalid, c)
  else if c.state_hash ≠ resp.prev_state_hash then
    (some VerifyError.HashMismatch, c)
  else
    (none, { game_state := resp.game.state, state_hash := hash (as_bytes resp.game) })

/-- Running a list of moves from a state, as the host's main loop does,
stopping at the first error. -/
def play : TicTacToe → List Point → Option MoveError × TicTacToe
  | g, [] => (none, g)
  | g, m :: ms =>
    match make_move g m with
    | (none, g') => play g' ms
    | (some e, g') => (some e, g')

/-- A `VmResponse` actually produced by the guest program on some input —
what a sound proof of `MAKE_MOVE_ID` attests. -/
def Genuine (resp : VmResponse) : Prop :=
  ∃ g p, guest_main g p = some resp

/-- Game states reachable from the initial state by successful
`make_move` calls. -/
inductive Reachable : TicTacToe → Prop
  | init : Reachable TicTacToe.new
  | step {g : TicTacToe} {p : Point} {g' : TicTacToe} :
      Reachable g → make_move g p = (none, g') → Reachable g'

/-- Modelled from the spec (§4.1, claim C1): player `pl` "fully occupies a
winning line (a row, a column, or a diagonal)" of board `b`.  This is the
spec-side predicate against which the engine's computed status is compared;
it is deliberately written from the spec's words, not from the scan in
`update_state`. -/
def occupiesLine (b : Board) (pl : Player) : Prop :=
  (∃ y : Fin 3, ∀ x : Fin 3, b y x = pl.intoCell) ∨
  (∃ x : Fin 3, ∀ y : Fin 3, b y x = pl.intoCell) ∨
  (∀ i : Fin 3, b i i = pl.intoCell) ∨
  (∀ i : Fin 3, b i (2 - i) = pl.intoCell)

instance (b : Board) (pl : Player) : Decidable (occupiesLine b pl) := by
  unfold occupiesLine; infer_instance

/-! Concrete states used by the example theorems below. -/

/-- The move sequence of the spec's row-win scenario:
`(0,0) (1,0) (0,1) (1,1) (0,2)`, A completing column `x = 0`. -/
def c9_moves : List Point := [⟨0, 0⟩, ⟨1, 0⟩, ⟨0, 1⟩, ⟨1, 1⟩, ⟨0, 2⟩]

/-- The same winning pattern for A (column `x = 0`), but with B's replies at
`(2,0)` and `(1,1)`, so that the corner `board[0][2]` holds B when A
completes the column. -/
def c1_moves : List Point := [⟨0, 0⟩, ⟨2, 0⟩, ⟨0, 1⟩, ⟨1, 1⟩, ⟨0, 2⟩]

/-- A finished game state, reached by legal play (the spec's own row-win
scenario, ending in `Winner A`). -/
def won_g : TicTacToe := (play TicTacToe.new c9_moves).2

/-- A client whose `state_hash` will not match the attestation below. -/
def c4_client : Client := { game_state := State.InProgress, state_hash := [0] }

/-- An attestation whose `prev_state_hash` differs from `c4_client`'s hash. -/
def c4_resp : VmResponse := { game := TicTacToe.new, prev_state_hash := [1] }

/-- The genuine attestation for the first move `(0,0)` from the initial
state (a non-terminal transition). -/
def c5w_resp : VmResponse :=
  { game := (make_move TicTacToe.new ⟨0, 0⟩).2
    prev_state_hash := hash (as_bytes TicTacToe.new) }

/-- The verifier state after accepting `c5w_resp`. -/
def c5w_client2 : Client :=
  { game_state := c5w_resp.game.state, state_hash := hash (as_bytes c5w_resp.game) }

/-- The state of the row-win scenario one move before A wins. -/
def c5x_prior : TicTacToe := (play TicTacToe.new [⟨0, 0⟩, ⟨1, 0⟩, ⟨0, 1⟩, ⟨1, 1⟩]).2

/-- The genuine attestation for A's winning move `(0,2)` from `c5x_prior`
(a terminal transition: the resulting status is `Winner A`). -/
def c5x_resp : VmResponse :=
  { game := (make_move c5x_prior ⟨0, 2⟩).2
    prev_state_hash := hash (as_bytes c5x_prior) }

/-- A verifier in sync with `c5x_prior`. -/
def c5x_client : Client :=
  { game_state := State.InProgress, state_hash := hash (as_bytes c5x_prior) }

/-- The verifier state after accepting the terminal attestation `c5x_resp`. -/
def c5x_client2 : Client :=
  { game_state := c5x_resp.game.state, state_hash := hash (as_bytes c5x_resp.game) }

/-! Helper lemmas. -/

/-- `update_state` writes only the `state` field. -/
lemma update_state_board (g : TicTacToe) : (update_state g).board = g.board := rfl

/-- `update_state` writes only the `state` field. -/
lemma update_state_previous (g : TicTacToe) : (update_state g).previous = g.previous := rfl

/-- Characterization of a successful `make_move`: all three validations
passed, and the result is `update_state` of the state with the acting
player recorded and the target cell marked. -/
lemma make_move_success {g : TicTacToe} {p : Point} {g' : TicTacToe}
    (h : make_move g p = (none, g')) :
    ∃ (hx : p.x < 3) (hy : p.y < 3),
      g.state = State.InProgress ∧
      g.board ⟨p.y, hy⟩ ⟨p.x, hx⟩ = Cell.Vacant ∧
      g' = update_state
        { g with
          previous := g.previous.flip
          board := setCell g.board ⟨p.y, hy⟩ ⟨p.x, hx⟩ g.previous.flip.intoCell } := by
  unfold make_move at h
  split_ifs at h with h1 h2
  · exact absurd h (by simp)
  · exact absurd h (by simp)
  · dsimp only at h
    have hx : p.x < 3 := by omega
    have hy : p.y < 3 := by omega
    split_ifs at h with h3
    · exact absurd h (by simp)
    · refine ⟨hx, hy, not_not.mp h1, not_not.mp h3, ?_⟩
      exact ((Prod.mk.injEq _ _ _ _).mp h).2.symm

/-- A failing `make_move` returns `self` unchanged: all three validations
precede any write. -/
lemma make_move_error_unchanged (g : TicTacToe) (p : Point)
    (h : (make_move g p).1 ≠ none) : (make_move g p).2 = g := by
  unfold make_move at h ⊢
  split_ifs at h ⊢ with h1 h2
  · rfl
  · rfl
  · dsimp only at h ⊢
    split_ifs at h ⊢ with h3
    · rfl
    · simp at h

/-- `cellByte` is injective (the three `#[repr(u8)]` discriminants differ). -/
lemma cellByte_inj : ∀ a b : Cell, cellByte a = cellByte b → a = b := by decide

/-- `playerByte` is injective. -/
lemma playerByte_inj : ∀ a b : Player, playerByte a = playerByte b → a = b := by decide

/-- `stateBytes` is injective (the four one-byte encodings differ). -/
lemma stateBytes_inj : ∀ a b : State, stateBytes a = stateBytes b → a = b := by decide

/-- `as_bytes`, unfolded to its explicit 11-byte shape. -/
lemma as_bytes_eq (g : TicTacToe) :
    as_bytes g =
      [cellByte (g.board 0 0), cellByte (g.board 0 1), cellByte (g.board 0 2),
       cellByte (g.board 1 0), cellByte (g.board 1 1), cellByte (g.board 1 2),
       cellByte (g.board 2 0), cellByte (g.board 2 1), cellByte (g.board 2 2),
       playerByte g.previous] ++ stateBytes g.state := rfl

/-- The canonical encoding is injective: it determines the whole state. -/
lemma as_bytes_inj {g1 g2 : TicTacToe} (h : as_bytes g1 = as_bytes g2) : g1 = g2 := by
  rw [as_bytes_eq, as_bytes_eq] at h
  simp only [List.cons_append, List.nil_append, List.cons.injEq] at h
  obtain ⟨h00, h01, h02, h10, h11, h12, h20, h21, h22, hp, hs⟩ := h
  have hb : g1.board = g2.board := by
    funext y x
    fin_cases y <;> fin_cases x <;>
      simp only [Fin.zero_eta, Fin.mk_one] <;>
      first
        | exact cellByte_inj _ _ h00
        | exact cellByte_inj _ _ h01
        | exact cellByte_inj _ _ h02
        | exact cellByte_inj _ _ h10
        | exact cellByte_inj _ _ h11
        | exact cellByte_inj _ _ h12
        | exact cellByte_inj _ _ h20
        | exact cellByte_inj _ _ h21
        | exact cellByte_inj _ _ h22
  cases g1; cases g2
  simp only [TicTacToe.mk.injEq]
  exact ⟨hb, playerByte_inj _ _ hp, stateBytes_inj _ _ hs⟩

/-- A successful move changes the encoding: the marked cell's byte goes
from `Vacant` (2) to the acting player's value (0 or 1). -/
lemma as_bytes_move_ne {g : TicTacToe} {p : Point} {g' : TicTacToe}
    (h : make_move g p = (none, g')) : as_bytes g' ≠ as_bytes g := by
  obtain ⟨hx, hy, _, hvac, rfl⟩ := make_move_success h
  intro heq
  have hb := congrArg TicTacToe.board (as_bytes_inj heq)
  rw [update_state_board] at hb
  have hcell := congrFun (congrFun hb ⟨p.y, hy⟩) ⟨p.x, hx⟩
  rw [hvac] at hcell
  simp only [setCell, and_self, if_pos] at hcell
  cases hflip : g.previous.flip <;> rw [hflip] at hcell <;> simp [Player.intoCell] at hcell

/-! The claims. -/

/-- Claim C1: the claim says a resulting status of `Winner(P)` implies that
`P` fully occupies a winning line.  The code violates it on a legally
reachable position: after the moves `(0,0) (2,0) (0,1) (1,1) (0,2)`
(A, B, A, B, A), A completes column `x = 0`, the scan breaks out at `y = 0`
with the column win recorded, and the merely *seeded* (never completed)
right-diagonal flag — true because `board[0][2]` holds B — unconditionally
overrides the winner with `board[0][2]`, so the status becomes `Winner B`
although B occupies no line and A occupies column `x = 0`. -/
theorem claim_C1_winner_misattributed :
    (play TicTacToe.new c1_moves).1 = none ∧
    (play TicTacToe.new c1_moves).2.state = State.Winner Player.B ∧
    ¬ occupiesLine (play TicTacToe.new c1_moves).2.board Player.B ∧
    occupiesLine (play TicTacToe.new c1_moves).2.board Player.A := by
  decide

/-- Claim C2: `as_bytes` is the fixed 11-byte sequence consisting of the
9 board cells row-major (one byte each, `Vacant`/`Player1`/`Player2`
having the distinct fixed values 2/0/1), then one byte for `previous`,
then the byte(s) for `state`, with no padding anywhere; and it is
deterministic — equal states produce identical byte sequences. -/
theorem claim_C2_canonical_encoding (g : TicTacToe) :
    as_bytes g =
      [cellByte (g.board 0 0), cellByte (g.board 0 1), cellByte (g.board 0 2),
       cellByte (g.board 1 0), cellByte (g.board 1 1), cellByte (g.board 1 2),
       cellByte (g.board 2 0), cellByte (g.board 2 1), cellByte (g.board 2 2),
       playerByte g.previous] ++ stateBytes g.state ∧
    (as_bytes g).length = 11 ∧
    (cellByte Cell.Vacant ≠ cellByte Cell.Player1 ∧
     cellByte Cell.Vacant ≠ cellByte Cell.Player2 ∧
     cellByte Cell.Player1 ≠ cellByte Cell.Player2) ∧
    (∀ g2 : TicTacToe, g = g2 → as_bytes g = as_bytes g2) := by
  refine ⟨as_bytes_eq g, ?_, by decide, fun g2 h2 => h2 ▸ rfl⟩
  rw [as_bytes_eq]
  cases g.state <;> rfl

/-- Claim C2, witness. -/
theorem claim_C2_witness :
    (as_bytes TicTacToe.new).length = 11 ∧
    as_bytes TicTacToe.new = as_bytes TicTacToe.new :=
  ⟨(claim_C2_canonical_encoding TicTacToe.new).2.1,
   (claim_C2_canonical_encoding TicTacToe.new).2.2.2 TicTacToe.new rfl⟩

/-- Claim C3: the guest program commits an attestation whose
`prev_state_hash` is the hash of the prior state's encoding and whose
resulting game is exactly the `make_move` result; it commits nothing
(fatal `unwrap` panic) exactly when `make_move` returns a `MoveError`. -/
theorem claim_C3_guest_program (g : TicTacToe) (p : Point) :
    ((make_move g p).1 = none →
      guest_main g p = some ⟨(make_move g p).2, hash (as_bytes g)⟩) ∧
    ((make_move g p).1 ≠ none → guest_main g p = none) := by
  unfold guest_main
  rcases h : make_move g p with ⟨e, g2⟩
  cases e <;> simp [h]

/-- Claim C3, witness: the first move from the initial state commits the
expected attestation; the out-of-bounds point `(3,3)` commits nothing. -/
theorem claim_C3_witness :
    guest_main TicTacToe.new ⟨0, 0⟩ =
      some ⟨(make_move TicTacToe.new ⟨0, 0⟩).2, hash (as_bytes TicTacToe.new)⟩ ∧
    guest_main TicTacToe.new ⟨3, 3⟩ = none :=
  ⟨(claim_C3_guest_program TicTacToe.new ⟨0, 0⟩).1 (by decide),
   (claim_C3_guest_program TicTacToe.new ⟨3, 3⟩).2 (by decide)⟩

/-- Claim C4: an in-progress verifier receiving a validly-proved
attestation whose `prev_state_hash` differs from its own `state_hash`
fails with `HashMismatch` and is left completely unchanged. -/
theorem claim_C4_hash_mismatch (c : Client) (resp : VmResponse)
    (h1 : c.game_state = State.InProgress)
    (h2 : resp.prev_state_hash ≠ c.state_hash) :
    verify_receipt c true resp = (some VerifyError.HashMismatch, c) := by
  unfold verify_receipt
  rw [if_neg (not_not.mpr h1), if_neg (by simp), if_pos (Ne.symm h2)]

/-- Claim C4, witness. -/
theorem claim_C4_witness :
    verify_receipt c4_client true c4_resp = (some VerifyError.HashMismatch, c4_client) :=
  claim_C4_hash_mismatch c4_client c4_resp rfl (by decide)

/-- Claim C5 (amended): a genuine attestation a verifier accepts is never
accepted a second time; the re-submission fails with `HashMismatch` when
the attested resulting status is still `InProgress` (as the claim states),
but with `AlreadyEnded` — not `HashMismatch` — when the accepted
attestation was terminal. -/
theorem claim_C5_no_replay (c : Client) (resp : VmResponse) (c2 : Client)
    (hgen : Genuine resp)
    (hacc : verify_receipt c true resp = (none, c2)) :
    (verify_receipt c2 true resp).1 ≠ none ∧
    (c2.game_state = State.InProgress →
      verify_receipt c2 true resp = (some VerifyError.HashMismatch, c2)) := by
  obtain ⟨g0, p0, hguest⟩ := hgen
  unfold guest_main at hguest
  rcases hmove : make_move g0 p0 with ⟨e, g1⟩
  rw [hmove] at hguest
  cases e with
  | some e => exact absurd hguest (by simp)
  | none =>
    simp only [Option.some.injEq] at hguest
    have hupd : c2 = { game_state := resp.game.state
                       state_hash := hash (as_bytes resp.game) } := by
      unfold verify_receipt at hacc
      by_cases ha : c.game_state ≠ State.InProgress
      · rw [if_pos ha] at hacc
        exact absurd hacc (by simp)
      · rw [if_neg ha, if_neg (by simp)] at hacc
        by_cases hc : c.state_hash ≠ resp.prev_state_hash
        · rw [if_pos hc] at hacc
          exact absurd hacc (by simp)
        · rw [if_neg hc] at hacc
          exact ((Prod.mk.injEq _ _ _ _).mp hacc).2.symm
    have hne : c2.state_hash ≠ resp.prev_state_hash := by
      rw [hupd, ← hguest]
      exact as_bytes_move_ne hmove
    constructor
    · unfold verify_receipt
      split_ifs <;> simp_all
    · intro hip
      unfold verify_receipt
      rw [if_neg (not_not.mpr hip), if_neg (by simp), if_pos hne]

/-- Claim C5 (amended), witness: the first-move attestation, once accepted,
is rejected with `HashMismatch` on re-submission. -/
theorem claim_C5_witness :
    (verify_receipt c5w_client2 true c5w_resp).1 ≠ none ∧
    verify_receipt c5w_client2 true c5w_resp = (some VerifyError.HashMismatch, c5w_client2) := by
  have h := claim_C5_no_replay Client.new c5w_resp c5w_client2
    ⟨TicTacToe.new, ⟨0, 0⟩, by decide⟩ (by decide)
  exact ⟨h.1, h.2 (by decide)⟩

/-- Claim C5, counterexample to the claim as stated: a genuine *terminal*
attestation (A's winning move) is accepted, but re-submitting it fails with
`AlreadyEnded` — the in-progress check precedes the hash check — not with
`HashMismatch` as the claim requires of every accepted attestation. -/
theorem claim_C5_counterexample :
    Genuine c5x_resp ∧
    verify_receipt c5x_client true c5x_resp = (none, c5x_client2) ∧
    (verify_receipt c5x_client2 true c5x_resp).1 = some VerifyError.AlreadyEnded ∧
    (verify_receipt c5x_client2 true c5x_resp).1 ≠ some VerifyError.HashMismatch :=
  ⟨⟨c5x_prior, ⟨0, 2⟩, by decide⟩, by decide, by decide, by decide⟩

/-- Claim C6: `make_move` fails exactly according to the ordered checks —
`GameFinished` if the status is not `InProgress`; otherwise
`PointOutOfBounds` if `x ≥ 3` or `y ≥ 3`; otherwise `CellOccupied` if the
target cell is not vacant; otherwise it succeeds — and on every error the
state is returned completely unchanged. -/
theorem claim_C6_error_order (g : TicTacToe) (p : Point) :
    (g.state ≠ State.InProgress →
      make_move g p = (some MoveError.GameFinished, g)) ∧
    (g.state = State.InProgress → (3 ≤ p.x ∨ 3 ≤ p.y) →
      make_move g p = (some MoveError.PointOutOfBounds, g)) ∧
    (∀ (hx : p.x < 3) (hy : p.y < 3), g.state = State.InProgress →
      g.board ⟨p.y, hy⟩ ⟨p.x, hx⟩ ≠ Cell.Vacant →
      make_move g p = (some MoveError.CellOccupied, g)) ∧
    (∀ (hx : p.x < 3) (hy : p.y < 3), g.state = State.InProgress →
      g.board ⟨p.y, hy⟩ ⟨p.x, hx⟩ = Cell.Vacant →
      (make_move g p).1 = none) ∧
    ((make_move g p).1 ≠ none → (make_move g p).2 = g) := by
  refine ⟨?_, ?_, ?_, ?_, ?_⟩
  · intro h
    unfold make_move
    rw [if_pos h]
  · intro h1 h2
    unfold make_move
    rw [if_neg (not_not.mpr h1), dif_pos h2]
  · intro hx hy h1 h2
    unfold make_move
    rw [if_neg (not_not.mpr h1), dif_neg (by omega)]
    dsimp only
    rw [if_pos h2]
  · intro hx hy h1 h2
    unfold make_move
    rw [if_neg (not_not.mpr h1), dif_neg (by omega)]
    dsimp only
    rw [if_neg (not_not.mpr h2)]
  · exact make_move_error_unchanged g p

/-- Claim C6, witness: each of the three errors, and a success, at
concrete inputs; the error cases return the state unchanged. -/
theorem claim_C6_witness :
    make_move won_g ⟨0, 0⟩ = (some MoveError.GameFinished, won_g) ∧
    make_move TicTacToe.new ⟨3, 0⟩ = (some MoveError.PointOutOfBounds, TicTacToe.new) ∧
    make_move (make_move TicTacToe.new ⟨0, 0⟩).2 ⟨0, 0⟩ =
      (some MoveError.CellOccupied, (make_move TicTacToe.new ⟨0, 0⟩).2) ∧
    (make_move TicTacToe.new ⟨0, 0⟩).1 = none ∧
    (make_move won_g ⟨1, 1⟩).2 = won_g :=
  ⟨(claim_C6_error_order won_g ⟨0, 0⟩).1 (by decide),
   (claim_C6_error_order TicTacToe.new ⟨3, 0⟩).2.1 (by decide) (by decide),
   (claim_C6_error_order (make_move TicTacToe.new ⟨0, 0⟩).2 ⟨0, 0⟩).2.2.1
     (by decide) (by decide) (by decide) (by decide),
   (claim_C6_error_order TicTacToe.new ⟨0, 0⟩).2.2.2.1
     (by decide) (by decide) (by decide) (by decide),
   (claim_C6_error_order won_g ⟨1, 1⟩).2.2.2.2 (by decide)⟩

/-- Claim C7, counterexample to the claim as stated: on a finished game
state (reached by legal play — the spec's own row-win scenario), an
out-of-bounds point yields `GameFinished`, not `PointOutOfBounds`: the
finished-game check precedes the bounds check. -/
theorem claim_C7_counterexample :
    (3 ≤ (Point.mk 3 0).x ∨ 3 ≤ (Point.mk 3 0).y) ∧
    make_move won_g ⟨3, 0⟩ = (some MoveError.GameFinished, won_g) ∧
    (make_move won_g ⟨3, 0⟩).1 ≠ some MoveError.PointOutOfBounds := by
  decide

/-- Claim C7 (amended): for every game state *whose status is `InProgress`*
and every point with `x ≥ 3` or `y ≥ 3`, `make_move` returns
`PointOutOfBounds` and leaves the state unchanged. -/
theorem claim_C7_out_of_bounds (g : TicTacToe) (p : Point)
    (hs : g.state = State.InProgress) (hb : 3 ≤ p.x ∨ 3 ≤ p.y) :
    make_move g p = (some MoveError.PointOutOfBounds, g) := by
  unfold make_move
  rw [if_neg (not_not.mpr hs), dif_pos hb]

/-- Claim C7 (amended), witness. -/
theorem claim_C7_witness :
    make_move TicTacToe.new ⟨0, 5⟩ = (some MoveError.PointOutOfBounds, TicTacToe.new) :=
  claim_C7_out_of_bounds TicTacToe.new ⟨0, 5⟩ rfl (by decide)

/-- Claim C8: the initial state has status `InProgress` and
`previous = B`; the first successful move is therefore made by A; and on
every reachable state, a successful move never returns an occupied cell to
`Vacant` (it leaves every non-vacant cell exactly as it was), strictly
alternates `previous`, and is only possible while the status is
`InProgress` (so a terminal status never changes: every move attempted on
it fails and returns the state unchanged). -/
theorem claim_C8_invariants :
    TicTacToe.new.state = State.InProgress ∧
    TicTacToe.new.previous = Player.B ∧
    (∀ (p : Point) (g' : TicTacToe),
      make_move TicTacToe.new p = (none, g') → g'.previous = Player.A) ∧
    (∀ g : TicTacToe, Reachable g →
      ∀ (p : Point) (er : Option MoveError) (g' : TicTacToe),
        make_move g p = (er, g') →
        (er = none →
          (∀ y x : Fin 3, g.board y x ≠ Cell.Vacant → g'.board y x = g.board y x) ∧
          g'.previous = g.previous.flip ∧
          g.state = State.InProgress) ∧
        (er ≠ none → g' = g)) := by
  refine ⟨rfl, rfl, ?_, ?_⟩
  · intro p g' h
    obtain ⟨hx, hy, _, _, rfl⟩ := make_move_success h
    rfl
  · intro g _ p er g' h
    constructor
    · rintro rfl
      obtain ⟨hx, hy, hs, hvac, rfl⟩ := make_move_success h
      refine ⟨?_, update_state_previous _, hs⟩
      intro y x hnv
      rw [update_state_board]
      show setCell g.board _ _ _ y x = g.board y x
      unfold setCell
      split_ifs with he
      · exact absurd (he.1 ▸ he.2 ▸ hvac) hnv
      · rfl
    · intro hne
      have h2 := make_move_error_unchanged g p (by rw [h]; simpa using hne)
      rw [h] at h2
      exact h2

/-- Claim C8, witness: the initial-state facts, the first move being A's,
the frame/alternation facts for the first move, and the unchanged-state
fact for a failing move. -/
theorem claim_C8_witness :
    TicTacToe.new.state = State.InProgress ∧
    (make_move TicTacToe.new ⟨0, 0⟩).2.previous = Player.A ∧
    (make_move TicTacToe.new ⟨3, 3⟩).2 = TicTacToe.new := by
  obtain ⟨h1, _, h3, h4⟩ := claim_C8_invariants
  refine ⟨h1, h3 ⟨0, 0⟩ _ ?_, (h4 TicTacToe.new Reachable.init ⟨3, 3⟩
    (some MoveError.PointOutOfBounds) TicTacToe.new (by decide)).2 (by decide)⟩
  exact Prod.ext (by decide) rfl

/-- Claim C9: starting from the initial state, the five moves
`(0,0) (1,0) (0,1) (1,1) (0,2)` all succeed (the engine makes A, B, A, B, A
the successive movers, the last recorded mover being A) and yield
`Winner A`, column `x = 0` being fully occupied by A. -/
theorem claim_C9_column_win :
    (play TicTacToe.new c9_moves).1 = none ∧
    (play TicTacToe.new c9_moves).2.state = State.Winner Player.A ∧
    (∀ y : Fin 3, (play TicTacToe.new c9_moves).2.board y 0 = Cell.Player1) ∧
    (play TicTacToe.new c9_moves).2.previous = Player.A := by
  decide

/-- Claim C10: a successful `make_move` changes the board only at the
single target cell `(p.x, p.y)`, which goes from `Vacant` to the acting
player's mark (`previous.flip`); every other cell is unchanged. -/
theorem claim_C10_frame (g : TicTacToe) (p : Point) (g' : TicTacToe)
    (h : make_move g p = (none, g')) :
    ∃ (hx : p.x < 3) (hy : p.y < 3),
      g.board ⟨p.y, hy⟩ ⟨p.x, hx⟩ = Cell.Vacant ∧
      g'.board ⟨p.y, hy⟩ ⟨p.x, hx⟩ = g.previous.flip.intoCell ∧
      ∀ y x : Fin 3, ¬(y.val = p.y ∧ x.val = p.x) → g'.board y x = g.board y x := by
  obtain ⟨hx, hy, _, hvac, rfl⟩ := make_move_success h
  refine ⟨hx, hy, hvac, ?_, ?_⟩
  · rw [update_state_board]
    show setCell _ _ _ _ _ _ = _
    unfold setCell
    rw [if_pos ⟨rfl, rfl⟩]
  · intro y x hne
    rw [update_state_board]
    show setCell _ _ _ _ _ _ = _
    unfold setCell
    rw [if_neg]
    rintro ⟨rfl, rfl⟩
    exact hne ⟨rfl, rfl⟩

/-- Claim C10, witness: A's first move at `(1,2)` marks exactly the cell
`board[2][1]` with `Player1` and leaves `board[0][0]` vacant. -/
theorem claim_C10_witness :
    (make_move TicTacToe.new ⟨1, 2⟩).2.board 2 1 = Cell.Player1 ∧
    (make_move TicTacToe.new ⟨1, 2⟩).2.board 0 0 = Cell.Vacant := by
  obtain ⟨hx, hy, hvac, hset, hframe⟩ :=
    claim_C10_frame TicTacToe.new ⟨1, 2⟩ (make_move TicTacToe.new ⟨1, 2⟩).2
      (Prod.ext (by decide) rfl)
  exact ⟨hset, hframe 0 0 (by decide)⟩

end ZkTicTacToe
